import Mathlib

/-!
Verification development for the api-dashboard repository (a TypeScript admin
dashboard client).  The data-access layer (src/lib/api.ts), the image upload
helper and the top-level application controller (App.tsx) are shallowly
embedded below: JSON values parsed from HTTP responses become the inductive
type `JValue`, the browser local storage becomes an association list from
keys to strings, and each TypeScript function becomes a Lean function over
these types.  Network effects are made explicit: each API function takes the
HTTP response it would receive, and the controller takes a `Server` record
describing the outcome of every request it can issue, returning the list of
requests it performed as a trace.
-/

set_option maxHeartbeats 1000000

/-- JValue models a JavaScript runtime value as delivered by response.json():
`undefined` is the JavaScript undefined value (distinct from null), objects are
field lists, and numbers are modelled as integers. -/
inductive JValue where
  | undefined
  | null
  | bool (b : Bool)
  | num (n : Int)
  | str (s : String)
  | arr (xs : List JValue)
  | obj (fields : List (String × JValue))

/-- truthy models JavaScript boolean coercion: undefined, null, false, 0 and
the empty string are falsy; every array and object is truthy. -/
def truthy : JValue → Bool
  | .undefined => false
  | .null => false
  | .bool b => b
  | .num n => n != 0
  | .str s => s != ""
  | .arr _ => true
  | .obj _ => true

/-- jNullish is true of the two JavaScript values on which a property access
throws a TypeError. -/
def jNullish : JValue → Bool
  | .null => true
  | .undefined => true
  | _ => false

/-- jGet models JavaScript property access `v[k]`: on null and on undefined
it throws a TypeError; on an object a missing field yields undefined; on any
other value the access succeeds with undefined. -/
def jGet : JValue → String → Except String JValue
  | .null, k =>
    .error ("TypeError: Cannot read properties of null (reading " ++ k ++ ")")
  | .undefined, k =>
    .error ("TypeError: Cannot read properties of undefined (reading " ++ k ++ ")")
  | .obj fs, k =>
    .ok (match fs.find? (fun p => p.1 == k) with
         | some p => p.2
         | none => .undefined)
  | _, _ => .ok .undefined

/-- jGetD is the value of the JavaScript read `v[k]` on the non-throwing
receivers: it agrees with jGet whenever the receiver is neither null nor
undefined (the bridge is jGet_of_not_nullish) and is used below only to
state conditions on such receivers, never to model an access that could
throw. -/
def jGetD : JValue → String → JValue
  | .obj fs, k =>
    match fs.find? (fun p => p.1 == k) with
    | some p => p.2
    | none => .undefined
  | _, _ => .undefined

theorem jGet_of_not_nullish (v : JValue) (k : String) (h : jNullish v = false) :
    jGet v k = .ok (jGetD v k) := by
  cases v <;> simp_all [jGet, jGetD, jNullish]

theorem not_nullish_of_truthy (v : JValue) (h : truthy v = true) :
    jNullish v = false := by
  cases v <;> simp_all [truthy, jNullish]

/-- jOr models the JavaScript expression `a || b`. -/
def jOr (a b : JValue) : JValue :=
  if truthy a then a else b

/-- isArray models `Array.isArray(v)`. -/
def isArray : JValue → Bool
  | .arr _ => true
  | _ => false

/-- jToList extracts the elements of an array value (empty for non-arrays);
used to model the branches guarded by `Array.isArray`. -/
def jToList : JValue → List JValue
  | .arr xs => xs
  | _ => []

/-- jLength models the JavaScript read `v.length` for the truthy receivers
on which it is evaluated in this development (`urlsData` is always truthy,
so the read cannot throw there): the element count of an array, the length
of a string, and otherwise the defaulted length property (the length field
of an object, undefined for the remaining primitives). -/
def jLength : JValue → JValue
  | .arr xs => .num xs.length
  | .str s => .num s.length
  | v => jGetD v "length"

/-- jToString models JavaScript string coercion `String(v)` as performed by
`localStorage.setItem` (array elements are rendered recursively; the
JavaScript rendering of null or undefined array elements as empty strings is
not distinguished, since only string tokens are ever stored). -/
def jToString : JValue → String
  | .undefined => "undefined"
  | .null => "null"
  | .bool true => "true"
  | .bool false => "false"
  | .num n => toString n
  | .str s => s
  | .arr xs => String.intercalate "," (xs.attach.map fun v => jToString v.1)
  | .obj _ => "[object Object]"
decreasing_by
  have := List.sizeOf_lt_of_mem v.2
  simp only [JValue.arr.sizeOf_spec]
  omega

/-! Association lists with JavaScript object-assignment semantics, used both
for HTTP header records and for the browser local storage. -/

/-- lookupKV returns the value stored at a key, if any. -/
def lookupKV : List (String × String) → String → Option String
  | [], _ => none
  | p :: l, k => if p.1 == k then some p.2 else lookupKV l k

/-- removeKV deletes every entry at a key. -/
def removeKV : List (String × String) → String → List (String × String)
  | [], _ => []
  | p :: l, k => if p.1 != k then p :: removeKV l k else removeKV l k

/-- setKV models the assignment `l[k] = v`: any previous entry at the key is
replaced. -/
def setKV (l : List (String × String)) (k v : String) : List (String × String) :=
  removeKV l k ++ [(k, v)]

theorem lookupKV_removeKV_self (l : List (String × String)) (k : String) :
    lookupKV (removeKV l k) k = none := by
  induction l with
  | nil => rfl
  | cons p l ih =>
    by_cases h : p.1 = k
    · simpa [removeKV, h] using ih
    · simpa [removeKV, lookupKV, h] using ih

theorem lookupKV_removeKV_ne (l : List (String × String)) (k k' : String) (h : k ≠ k') :
    lookupKV (removeKV l k') k = lookupKV l k := by
  induction l with
  | nil => rfl
  | cons p l ih =>
    by_cases hp : p.1 = k'
    · simpa [removeKV, lookupKV, hp, Ne.symm h] using ih
    · by_cases hpk : p.1 = k
      · simp [removeKV, lookupKV, hp, hpk, h]
      · simpa [removeKV, lookupKV, hp, hpk] using ih

theorem lookupKV_append (l₁ l₂ : List (String × String)) (k : String) :
    lookupKV (l₁ ++ l₂) k =
      (match lookupKV l₁ k with
       | some v => some v
       | none => lookupKV l₂ k) := by
  induction l₁ with
  | nil => simp [lookupKV]
  | cons p l ih =>
    by_cases h : p.1 = k
    · simp [lookupKV, h]
    · simpa [lookupKV, h] using ih

theorem lookupKV_setKV_self (l : List (String × String)) (k v : String) :
    lookupKV (setKV l k v) k = some v := by
  simp only [setKV]
  rw [lookupKV_append, lookupKV_removeKV_self]
  simp [lookupKV]

theorem lookupKV_setKV_ne (l : List (String × String)) (k v k' : String) (h : k' ≠ k) :
    lookupKV (setKV l k v) k' = lookupKV l k' := by
  simp only [setKV]
  rw [lookupKV_append, lookupKV_removeKV_ne l k' k h]
  cases hl : lookupKV l k' with
  | some v' => rfl
  | none =>
    have hkk : (k == k') = false := by
      simp only [beq_eq_false_iff_ne, ne_eq]
      exact fun hk => h hk.symm
    simp [lookupKV, hkk]

/-! Browser local storage (api.ts lines 4-6 and the call sites in App.tsx):
a persistent string-to-string key-value store. -/

/-- LocalStorage models the browser localStorage object. -/
abbrev LocalStorage := List (String × String)

/-- getItem models `localStorage.getItem(k)` (null becomes none). -/
def getItem (s : LocalStorage) (k : String) : Option String :=
  lookupKV s k

/-- setItem models `localStorage.setItem(k, v)`. -/
def setItem (s : LocalStorage) (k v : String) : LocalStorage :=
  setKV s k v

/-- removeItem models `localStorage.removeItem(k)`. -/
def removeItem (s : LocalStorage) (k : String) : LocalStorage :=
  removeKV s k

/-- getAuthToken embeds the helper of api.ts lines 4-6. -/
def getAuthToken (s : LocalStorage) : Option String :=
  getItem s "authToken"

/-- strTruthy models the JavaScript truthiness of a `string | null` value,
as tested by `if (token)` in api.ts line 21. -/
def strTruthy : Option String → Bool
  | none => false
  | some s => s != ""

/-! HTTP requests and responses. -/

/-- HttpResponse models the fetch response as the API layer observes it: the
status code, the JSON value `response.json()` would produce, and the raw text
`response.text()` would produce. -/
structure HttpResponse where
  status : Nat
  body : JValue
  bodyText : String

/-- respOk models the fetch `response.ok` flag: status in the range 200-299. -/
def respOk (r : HttpResponse) : Bool :=
  200 ≤ r.status && r.status < 300

/-- ReqBody models the value placed in the `body` slot of fetch options:
either a string (produced by JSON.stringify) or a FormData object. -/
inductive ReqBody where
  | str (s : String)
  | formData (fields : List (String × String))

/-- RequestInit models the fetch options object passed to apiRequest; a
`none` field is a key absent from the object literal. -/
structure RequestInit where
  method : Option String := none
  headers : Option (List (String × String)) := none
  body : Option ReqBody := none
  credentials : Option String := none

/-- isFormDataBody models `options.body instanceof FormData` (api.ts line 30). -/
def isFormDataBody : Option ReqBody → Bool
  | some (.formData _) => true
  | _ => false

/-- BuiltRequest is the request value handed to fetch by apiRequest. -/
structure BuiltRequest where
  url : String
  method : Option String
  headers : List (String × String)
  body : Option ReqBody
  credentials : String

/-- createHeaders embeds api.ts lines 9-26: start from the additional
headers, set Content-Type for non-FormData bodies, and add the Authorization
header when the stored token is truthy (`if (token)` is false both for null
and for the empty string). -/
def createHeaders (store : LocalStorage) (additionalHeaders : List (String × String))
    (isFormData : Bool) : List (String × String) :=
  let headers := additionalHeaders
  let headers :=
    if isFormData = false then setKV headers "Content-Type" "application/json"
    else headers
  match getAuthToken store with
  | some token =>
      if token != "" then setKV headers "Authorization" ("Bearer " ++ token)
      else headers
  | none => headers

/-- apiRequest embeds api.ts lines 29-39.  The options object is spread into
the default options AFTER the computed `credentials` and `headers` entries,
so an options value that itself carries a `headers` or `credentials` key
replaces the computed entry wholesale. -/
def apiRequest (store : LocalStorage) (url : String) (options : RequestInit) : BuiltRequest :=
  let isFormData := isFormDataBody options.body
  { url := url
    method := options.method
    headers :=
      match options.headers with
      | some h => h
      | none => createHeaders store [] isFormData
    body := options.body
    credentials :=
      match options.credentials with
      | some c => c
      | none => "include" }

/-- NetOutcome models whether a fetch call settled or rejected at the
transport level; the logout path ignores it entirely. -/
inductive NetOutcome where
  | completed (status : Nat)
  | rejected

/-- authAPI.login embeds api.ts lines 43-61: non-2xx throws the generic
error; otherwise the read `data.token` (a TypeError on a null or undefined
body) is persisted, when truthy, to local storage and the parsed body is
returned. -/
def authAPI.login (store : LocalStorage) (resp : HttpResponse) :
    Except String (LocalStorage × JValue) :=
  if respOk resp = false then .error "Login failed"
  else do
    let data := resp.body
    let token ← jGet data "token"
    let store :=
      if truthy token then setItem store "authToken" (jToString token)
      else store
    pure (store, data)

/-- authAPI.logout embeds api.ts lines 63-76: the token is removed from
local storage first, and the logout endpoint call is wrapped in try/catch
with its outcome ignored, so the function never fails and the resulting
storage does not depend on the outcome. -/
def authAPI.logout (store : LocalStorage) (outcome : NetOutcome) : LocalStorage :=
  let store := removeItem store "authToken"
  match outcome with
  | .completed _ => store
  | .rejected => store

/-! Resource API modules (api.ts lines 79-284).  Each function models the
response-handling phase of the corresponding call: the argument is the HTTP
response the call received, a thrown Error becomes `Except.error` carrying
the message, and the resolved value becomes `Except.ok`.  The request bodies
passed by callers do not influence this phase and are omitted. -/

/-- isOkE tests whether a call resolved rather than threw. -/
def isOkE {α : Type} : Except String α → Bool
  | .ok _ => true
  | .error _ => false

/-- projectsAPI.getAll embeds api.ts lines 81-90; the read `data.data`
throws on a null or undefined 2xx body. -/
def projectsAPI.getAll (r : HttpResponse) : Except String JValue :=
  if respOk r = false then .error "Failed to fetch projects"
  else do
    let d ← jGet r.body "data"
    pure (jOr d (.arr []))

/-- projectsAPI.create embeds api.ts lines 92-105. -/
def projectsAPI.create (r : HttpResponse) : Except String JValue :=
  if respOk r = false then .error "Failed to create project"
  else .ok r.body

/-- projectsAPI.update embeds api.ts lines 107-120. -/
def projectsAPI.update (r : HttpResponse) : Except String JValue :=
  if respOk r = false then .error "Failed to update project"
  else .ok r.body

/-- projectsAPI.delete embeds api.ts lines 122-132. -/
def projectsAPI.delete (r : HttpResponse) : Except String JValue :=
  if respOk r = false then .error "Failed to delete project"
  else .ok r.body

/-- skillsAPI.getAll embeds api.ts lines 137-146; the read `data.data`
throws on a null or undefined 2xx body. -/
def skillsAPI.getAll (r : HttpResponse) : Except String JValue :=
  if respOk r = false then .error "Failed to fetch skills"
  else do
    let d ← jGet r.body "data"
    pure (jOr d (.arr []))

/-- skillsAPI.create embeds api.ts lines 148-161. -/
def skillsAPI.create (r : HttpResponse) : Except String JValue :=
  if respOk r = false then .error "Failed to create skill"
  else .ok r.body

/-- skillsAPI.update embeds api.ts lines 163-176. -/
def skillsAPI.update (r : HttpResponse) : Except String JValue :=
  if respOk r = false then .error "Failed to update skill"
  else .ok r.body

/-- skillsAPI.delete embeds api.ts lines 178-188. -/
def skillsAPI.delete (r : HttpResponse) : Except String JValue :=
  if respOk r = false then .error "Failed to delete skill"
  else .ok r.body

/-- messagesAPI.getAll embeds api.ts lines 193-202; the read `data.data`
throws on a null or undefined 2xx body. -/
def messagesAPI.getAll (r : HttpResponse) : Except String JValue :=
  if respOk r = false then .error "Failed to fetch messages"
  else do
    let d ← jGet r.body "data"
    pure (jOr d (.arr []))

/-! URL shortener API with its pagination normalization (api.ts 206-284). -/

/-- Pagination is the five-field record built by urlAPI.getAll; the fields
are JavaScript values, so that a missing or undefined field is expressible
as `JValue.undefined`. -/
structure Pagination where
  currentPage : JValue
  totalPages : JValue
  totalItems : JValue
  hasNext : JValue
  hasPrev : JValue

/-- UrlListResult is the record returned by urlAPI.getAll. -/
structure UrlListResult where
  data : List JValue
  pagination : Pagination

/-- envCond is the condition `result.success && result.data` of api.ts line
217 selecting the current nested-envelope branch, stated with the defaulted
reads: it describes the condition value for the non-nullish bodies on which
the reads do not throw. -/
def envCond (result : JValue) : Bool :=
  truthy (jGetD result "success") && truthy (jGetD result "data")

/-- urlsVal is the value of `result.data.urls || []` of api.ts line 218 for
the non-nullish bodies on which it is evaluated. -/
def urlsVal (result : JValue) : JValue :=
  jOr (jGetD (jGetD result "data") "urls") (.arr [])

/-- pagData is the value of `result.data.pagination || -LCB- -RCB-` of
api.ts line 219 for the non-nullish bodies on which it is evaluated. -/
def pagData (result : JValue) : JValue :=
  jOr (jGetD (jGetD result "data") "pagination") (.obj [])

/-- urlAPI.normalizeList embeds the body of urlAPI.getAll after
`response.json()` (api.ts lines 214-244): the read `result.success` throws
a TypeError on a null or undefined body; otherwise the envelope branch with
its field-by-field defaulting, or the legacy/fallback branch building a
synthetic single-page envelope.  `result.data` is read here right after
`result.success`; in the source it is read only when success is truthy, an
equivalent order because a second read on the same non-nullish receiver is
pure and cannot throw.  Inside the envelope branch every receiver is truthy
(result.data by the condition, urlsData and paginationData by their
defaults), so those reads are bound but cannot throw; urlsData.length in
the source is short-circuited away when totalUrls is truthy, equivalently
evaluated here because it cannot throw on the truthy urlsData. -/
def urlAPI.normalizeList (page : Int) (result : JValue) :
    Except String UrlListResult := do
  let success ← jGet result "success"
  let dataV ← jGet result "data"
  if truthy success && truthy dataV then
    let urlsRaw ← jGet dataV "urls"
    let urlsData := jOr urlsRaw (.arr [])
    let pagRaw ← jGet dataV "pagination"
    let paginationData := jOr pagRaw (.obj [])
    let cp ← jGet paginationData "currentPage"
    let tp ← jGet paginationData "totalPages"
    let tu ← jGet paginationData "totalUrls"
    let hn ← jGet paginationData "hasNextPage"
    let hp ← jGet paginationData "hasPrevPage"
    pure { data := if isArray urlsData then jToList urlsData else []
           pagination :=
             { currentPage := jOr cp (.num page)
               totalPages := jOr tp (.num 1)
               totalItems := jOr tu (jLength urlsData)
               hasNext := jOr hn (.bool false)
               hasPrev := jOr hp (.bool false) } }
  else
    let data := if isArray result then jToList result else []
    pure { data := data
           pagination :=
             { currentPage := .num page
               totalPages := .num 1
               totalItems := .num data.length
               hasNext := .bool false
               hasPrev := .bool false } }

/-- urlAPI.getAll embeds api.ts lines 207-245: generic error on non-2xx,
otherwise the normalization of the parsed body, whose own TypeError (on a
null or undefined body) propagates as the rejection of the call. -/
def urlAPI.getAll (page : Int) (r : HttpResponse) : Except String UrlListResult :=
  if respOk r = false then .error "Failed to fetch URLs"
  else urlAPI.normalizeList page r.body

/-- urlAPI.create embeds api.ts lines 247-258. -/
def urlAPI.create (r : HttpResponse) : Except String JValue :=
  if respOk r = false then .error "Failed to create short URL"
  else .ok r.body

/-- urlAPI.update embeds api.ts lines 260-271. -/
def urlAPI.update (r : HttpResponse) : Except String JValue :=
  if respOk r = false then .error "Failed to update URL"
  else .ok r.body

/-- urlAPI.delete embeds api.ts lines 273-283. -/
def urlAPI.delete (r : HttpResponse) : Except String JValue :=
  if respOk r = false then .error "Failed to delete URL"
  else .ok r.body

/-! Image upload helper (the imageUpload utility module). -/

/-- JFile models the browser File value: its MIME type string and its size
in bytes. -/
structure JFile where
  name : String
  type : String
  size : Nat

/-- strStartsWith models the JavaScript test `s.startsWith(p)` as a check on
the character sequences of the two strings. -/
def strStartsWith (s p : String) : Bool :=
  p.toList.isPrefixOf s.toList

/-- ValidationResult is the structured result of validateImageFile. -/
structure ValidationResult where
  valid : Bool
  error : Option String := none

/-- validateImageFile embeds lines 22-35 of the upload helper: reject a MIME
type that does not start with image/, reject a size strictly greater than
5 * 1024 * 1024 bytes, accept otherwise. -/
def validateImageFile (file : JFile) : ValidationResult :=
  if strStartsWith file.type "image/" = false then
    { valid := false, error := some "File must be an image" }
  else
    let maxSize := 5 * 1024 * 1024
    if maxSize < file.size then
      { valid := false, error := some "File size must be less than 5MB" }
    else
      { valid := true }

/-- UploadOutcome records whether uploadImage issued its network request and
what the returned promise did: `requested` is true exactly when the fetch to
the upload endpoint was reached. -/
structure UploadOutcome where
  requested : Bool
  result : Except String JValue

/-- uploadImage embeds lines 40-76 of the upload helper: validation failure
throws the validation error before any fetch; otherwise the request is
issued and the response is checked and unwrapped (the final catch only
rethrows Error values, so it does not alter these outcomes).  The read
`result.url` throws on a null or undefined 2xx body; `result.data?.url`
cannot throw once that read succeeded (the receiver is the same body, and
the optional chaining guards a nullish data field), and is evaluated here
unconditionally although the source short-circuits it away when result.url
is truthy - equivalent, because it is pure and cannot throw there. -/
def uploadImage (file : JFile) (resp : HttpResponse) : UploadOutcome :=
  let validation := validateImageFile file
  if validation.valid = false then
    { requested := false, result := .error (validation.error.getD "") }
  else
    { requested := true
      result :=
        if respOk resp = false then
          .error ("Upload failed: " ++ toString resp.status ++ " " ++ resp.bodyText)
        else do
          let u ← jGet resp.body "url"
          let dataV ← jGet resp.body "data"
          let du := if jNullish dataV then JValue.undefined else jGetD dataV "url"
          let imageUrl := jOr u du
          if truthy imageUrl = false then
            .error "No image URL returned from server"
          else pure imageUrl }

/-! Application controller (App.tsx).  The component state is the record
below; the server side is abstracted as a record giving the outcome of every
request the controller can issue, and every handler returns the ordered list
of request batches it performed (requests inside one batch are issued
together by Promise.all; distinct batches are awaited sequentially). -/

/-- AppState is the React state of the App component (App.tsx lines 49-67). -/
structure AppState where
  isAuthenticated : Bool
  activeSection : String
  projects : List JValue
  skills : List JValue
  messages : List JValue
  urls : List JValue
  urlPagination : Pagination
  currentUrlPage : Int

/-- initialAppState is the useState initial state of App.tsx lines 49-67. -/
def initialAppState : AppState :=
  { isAuthenticated := false
    activeSection := "overview"
    projects := []
    skills := []
    messages := []
    urls := []
    urlPagination :=
      { currentPage := .num 1, totalPages := .num 1, totalItems := .num 0
        hasNext := .bool false, hasPrev := .bool false }
    currentUrlPage := 1 }

/-- FetchOp names one request issued through the resource API modules. -/
inductive FetchOp where
  | getProjects
  | getSkills
  | getMessages
  | getUrls (page limit : Int)
  | createProject
  | updateProject (id : String)
  | deleteProject (id : String)
  | createSkill
  | updateSkill (id : String)
  | deleteSkill (id : String)
  | createUrl
  | updateUrl (id : String)
  | deleteUrl (id : String)
  deriving Repr, DecidableEq

/-- Server fixes the outcome of every request the controller can issue:
list calls either resolve with a list or throw, mutation calls either
resolve with a body or throw, and the login call receives a fixed HTTP
response.  The logout outcome is the transport result of the logout
endpoint call, which the client ignores. -/
structure Server where
  projectsList : Except String (List JValue)
  skillsList : Except String (List JValue)
  messagesList : Except String (List JValue)
  urlsList : Int → Int → Except String UrlListResult
  projectCreate : Except String JValue
  projectUpdate : Except String JValue
  projectDelete : Except String JValue
  skillCreate : Except String JValue
  skillUpdate : Except String JValue
  skillDelete : Except String JValue
  urlCreate : Except String JValue
  urlUpdate : Except String JValue
  urlDelete : Except String JValue
  loginResp : HttpResponse
  logoutOutcome : NetOutcome

/-- orEmptyList models the `.catch(() => [])` attached to each of the three
list fetches in App.tsx lines 84-88. -/
def orEmptyList (e : Except String (List JValue)) : List JValue :=
  match e with
  | .ok l => l
  | .error _ => []

/-- loadUrlsData embeds App.tsx lines 101-117: fetch one page with limit 20,
store the returned list and pagination record, and on a thrown error store
the empty list and the hard-coded reset pagination record; the function
never fails. -/
def loadUrlsData (srv : Server) (st : AppState) (page : Int) :
    AppState × List (List FetchOp) :=
  (match srv.urlsList page 20 with
   | .ok r => { st with urls := r.data, urlPagination := r.pagination }
   | .error _ =>
     { st with
       urls := []
       urlPagination :=
         { currentPage := .num 1, totalPages := .num 1, totalItems := .num 0
           hasNext := .bool false, hasPrev := .bool false } },
   [[.getUrls page 20]])

/-- loadDashboardData embeds App.tsx lines 82-99: a Promise.all batch of the
three list fetches, each individually defaulted to the empty list on error,
followed by a separate sequential URL page load at the current URL page. -/
def loadDashboardData (srv : Server) (st : AppState) :
    AppState × List (List FetchOp) :=
  let projectsData := orEmptyList srv.projectsList
  let skillsData := orEmptyList srv.skillsList
  let messagesData := orEmptyList srv.messagesList
  let st1 := { st with projects := projectsData, skills := skillsData, messages := messagesData }
  let r := loadUrlsData srv st1 st.currentUrlPage
  (r.1, [[.getProjects, .getSkills, .getMessages]] ++ r.2)

/-- handleLogout embeds App.tsx lines 135-144 together with authAPI.logout:
remove the token, ignore the logout endpoint outcome, remove the
isAuthenticated flag, clear the authenticated state and reset the section. -/
def handleLogout (store : LocalStorage) (st : AppState) (outcome : NetOutcome) :
    LocalStorage × AppState :=
  let store := authAPI.logout store outcome
  let store := removeItem store "isAuthenticated"
  (store, { st with isAuthenticated := false, activeSection := "overview" })

/-- handleUrlPageChange embeds App.tsx lines 119-122. -/
def handleUrlPageChange (srv : Server) (st : AppState) (page : Int) :
    AppState × List (List FetchOp) :=
  let st := { st with currentUrlPage := page }
  let r := loadUrlsData srv st page
  (r.1, r.2)

/-- handleAddProject embeds App.tsx lines 147-150: a failed create rejects
the handler before any reload; a successful create is followed by a full
dashboard reload. -/
def handleAddProject (srv : Server) (st : AppState) :
    Except String AppState × List (List FetchOp) :=
  match srv.projectCreate with
  | .error e => (.error e, [[.createProject]])
  | .ok _ =>
    let r := loadDashboardData srv st
    (.ok r.1, [[.createProject]] ++ r.2)

/-- handleUpdateProject embeds App.tsx lines 152-155. -/
def handleUpdateProject (srv : Server) (st : AppState) (id : String) :
    Except String AppState × List (List FetchOp) :=
  match srv.projectUpdate with
  | .error e => (.error e, [[.updateProject id]])
  | .ok _ =>
    let r := loadDashboardData srv st
    (.ok r.1, [[.updateProject id]] ++ r.2)

/-- handleDeleteProject embeds App.tsx lines 157-160. -/
def handleDeleteProject (srv : Server) (st : AppState) (id : String) :
    Except String AppState × List (List FetchOp) :=
  match srv.projectDelete with
  | .error e => (.error e, [[.deleteProject id]])
  | .ok _ =>
    let r := loadDashboardData srv st
    (.ok r.1, [[.deleteProject id]] ++ r.2)

/-- handleAddSkill embeds App.tsx lines 163-166. -/
def handleAddSkill (srv : Server) (st : AppState) :
    Except String AppState × List (List FetchOp) :=
  match srv.skillCreate with
  | .error e => (.error e, [[.createSkill]])
  | .ok _ =>
    let r := loadDashboardData srv st
    (.ok r.1, [[.createSkill]] ++ r.2)

/-- handleUpdateSkill embeds App.tsx lines 168-171. -/
def handleUpdateSkill (srv : Server) (st : AppState) (id : String) :
    Except String AppState × List (List FetchOp) :=
  match srv.skillUpdate with
  | .error e => (.error e, [[.updateSkill id]])
  | .ok _ =>
    let r := loadDashboardData srv st
    (.ok r.1, [[.updateSkill id]] ++ r.2)

/-- handleDeleteSkill embeds App.tsx lines 173-176. -/
def handleDeleteSkill (srv : Server) (st : AppState) (id : String) :
    Except String AppState × List (List FetchOp) :=
  match srv.skillDelete with
  | .error e => (.error e, [[.deleteSkill id]])
  | .ok _ =>
    let r := loadDashboardData srv st
    (.ok r.1, [[.deleteSkill id]] ++ r.2)

/-- handleAddUrl embeds App.tsx lines 179-182: a successful create reloads
only the URL list at the current URL page. -/
def handleAddUrl (srv : Server) (st : AppState) :
    Except String AppState × List (List FetchOp) :=
  match srv.urlCreate with
  | .error e => (.error e, [[.createUrl]])
  | .ok _ =>
    let r := loadUrlsData srv st st.currentUrlPage
    (.ok r.1, [[.createUrl]] ++ r.2)

/-- handleUpdateUrl embeds App.tsx lines 184-187. -/
def handleUpdateUrl (srv : Server) (st : AppState) (id : String) :
    Except String AppState × List (List FetchOp) :=
  match srv.urlUpdate with
  | .error e => (.error e, [[.updateUrl id]])
  | .ok _ =>
    let r := loadUrlsData srv st st.currentUrlPage
    (.ok r.1, [[.updateUrl id]] ++ r.2)

/-- handleDeleteUrl embeds App.tsx lines 189-192. -/
def handleDeleteUrl (srv : Server) (st : AppState) (id : String) :
    Except String AppState × List (List FetchOp) :=
  match srv.urlDelete with
  | .error e => (.error e, [[.deleteUrl id]])
  | .ok _ =>
    let r := loadUrlsData srv st st.currentUrlPage
    (.ok r.1, [[.deleteUrl id]] ++ r.2)

/-- AppEvent is one user-driven transition of the App component. -/
inductive AppEvent where
  | login
  | logout
  | urlPageChange (page : Int)

/-- appStep runs one event against the component.  A login event runs
handleLogin (App.tsx lines 124-133): on success the isAuthenticated flag is
persisted and set, and the isAuthenticated effect of App.tsx lines 76-80
fires loadDashboardData exactly when the flag transitions from false to
true.  A logout event runs handleLogout; the isAuthenticated effect does
nothing when the flag becomes false.  A page-change event runs
handleUrlPageChange. -/
def appStep (srv : Server) (w : LocalStorage × AppState) :
    AppEvent → (LocalStorage × AppState) × List (List FetchOp)
  | .login =>
    match authAPI.login w.1 srv.loginResp with
    | .error _ => (w, [])
    | .ok sd =>
      let store := setItem sd.1 "isAuthenticated" "true"
      let st := { w.2 with isAuthenticated := true }
      if w.2.isAuthenticated = false then
        let r := loadDashboardData srv st
        ((store, r.1), r.2)
      else ((store, st), [])
  | .logout =>
    let r := handleLogout w.1 w.2 srv.logoutOutcome
    ((r.1, r.2), [])
  | .urlPageChange page =>
    let r := handleUrlPageChange srv w.2 page
    ((w.1, r.1), r.2)

/-- runEvents folds appStep over an event list, concatenating the traces. -/
def runEvents (srv : Server) (w : LocalStorage × AppState) :
    List AppEvent → (LocalStorage × AppState) × List (List FetchOp)
  | [] => (w, [])
  | e :: es =>
    let r1 := appStep srv w e
    let r2 := runEvents srv r1.1 es
    (r2.1, r1.2 ++ r2.2)

/-- demoPagination is a concrete pagination record for concrete scenarios. -/
def demoPagination : Pagination :=
  { currentPage := .num 1, totalPages := .num 1, totalItems := .num 0
    hasNext := .bool false, hasPrev := .bool false }

/-- demoServer is a concrete server on which every request succeeds; its
login response carries no token field. -/
def demoServer : Server :=
  { projectsList := .ok []
    skillsList := .ok []
    messagesList := .ok []
    urlsList := fun _ _ => .ok { data := [], pagination := demoPagination }
    projectCreate := .ok .null
    projectUpdate := .ok .null
    projectDelete := .ok .null
    skillCreate := .ok .null
    skillUpdate := .ok .null
    skillDelete := .ok .null
    urlCreate := .ok .null
    urlUpdate := .ok .null
    urlDelete := .ok .null
    loginResp := { status := 200, body := .obj [], bodyText := "" }
    logoutOutcome := .rejected }

/-- failingServer is demoServer with the three dashboard list fetches
throwing. -/
def failingServer : Server :=
  { demoServer with
    projectsList := .error "network down"
    skillsList := .error "network down"
    messagesList := .error "network down" }

/-! Helper lemmas about JavaScript truthiness and defaulting. -/

theorem truthy_ne_undefined (v : JValue) (h : truthy v = true) : v ≠ .undefined := by
  intro hv
  rw [hv] at h
  exact Bool.false_ne_true h

theorem jOr_of_truthy (a b : JValue) (h : truthy a = true) : jOr a b = a := by
  simp [jOr, h]

theorem jOr_of_falsy (a b : JValue) (h : truthy a = false) : jOr a b = b := by
  simp [jOr, h]

theorem jOr_ne_undefined (a b : JValue) (hb : b ≠ .undefined) : jOr a b ≠ .undefined := by
  by_cases h : truthy a = true
  · rw [jOr_of_truthy a b h]
    exact truthy_ne_undefined a h
  · rw [jOr_of_falsy a b (by simpa using h)]
    exact hb

theorem jOr_eq_undefined_iff (a b : JValue) :
    jOr a b = .undefined ↔ (truthy a = false ∧ b = .undefined) := by
  by_cases h : truthy a = true
  · rw [jOr_of_truthy a b h]
    constructor
    · intro ha
      exact absurd ha (truthy_ne_undefined a h)
    · intro hf
      rw [h] at hf
      exact absurd hf.1 (by simp)
  · have h' : truthy a = false := by simpa using h
    rw [jOr_of_falsy a b h']
    simp [h']

theorem num_ne_undefined (n : Int) : JValue.num n ≠ JValue.undefined := by
  intro h
  exact JValue.noConfusion h

theorem bool_ne_undefined (b : Bool) : JValue.bool b ≠ JValue.undefined := by
  intro h
  exact JValue.noConfusion h

/-- normalizeListD is the record computed by urlAPI.normalizeList on the
bodies where no read throws (every body other than null and undefined),
written with the defaulted reads; normalizeList_of_not_nullish is the
bridge. -/
def normalizeListD (page : Int) (result : JValue) : UrlListResult :=
  if envCond result then
    let urlsData := urlsVal result
    let paginationData := pagData result
    { data := if isArray urlsData then jToList urlsData else []
      pagination :=
        { currentPage := jOr (jGetD paginationData "currentPage") (.num page)
          totalPages := jOr (jGetD paginationData "totalPages") (.num 1)
          totalItems := jOr (jGetD paginationData "totalUrls") (jLength urlsData)
          hasNext := jOr (jGetD paginationData "hasNextPage") (.bool false)
          hasPrev := jOr (jGetD paginationData "hasPrevPage") (.bool false) } }
  else
    let data := if isArray result then jToList result else []
    { data := data
      pagination :=
        { currentPage := .num page
          totalPages := .num 1
          totalItems := .num data.length
          hasNext := .bool false
          hasPrev := .bool false } }

theorem exceptPure_ok {α : Type} (a : α) :
    (pure a : Except String α) = .ok a := rfl

theorem exceptBind_ok {α β : Type} (a : α) (f : α → Except String β) :
    ((Except.ok a : Except String α) >>= f) = f a := rfl

theorem exceptBind_error {α β : Type} (e : String) (f : α → Except String β) :
    ((Except.error e : Except String α) >>= f) = .error e := rfl

theorem exceptMap_ok {α β : Type} (g : α → β) (a : α) :
    (g <$> (Except.ok a : Except String α)) = .ok (g a) := rfl

theorem exceptMap_error {α β : Type} (g : α → β) (e : String) :
    (g <$> (Except.error e : Except String α)) = .error e := rfl

theorem truthy_jOr_right (a b : JValue) (hb : truthy b = true) :
    truthy (jOr a b) = true := by
  by_cases h : truthy a = true
  · rw [jOr_of_truthy a b h]
    exact h
  · rw [jOr_of_falsy a b (by simpa using h)]
    exact hb

theorem normalizeList_of_not_nullish (page : Int) (result : JValue)
    (hnn : jNullish result = false) :
    urlAPI.normalizeList page result = .ok (normalizeListD page result) := by
  have hs := jGet_of_not_nullish result "success" hnn
  have hd := jGet_of_not_nullish result "data" hnn
  by_cases hc : envCond result = true
  · have hc' := hc
    simp only [envCond, Bool.and_eq_true] at hc'
    have hdnn : jNullish (jGetD result "data") = false :=
      not_nullish_of_truthy _ hc'.2
    have hu := jGet_of_not_nullish (jGetD result "data") "urls" hdnn
    have hpg := jGet_of_not_nullish (jGetD result "data") "pagination" hdnn
    have hpt : truthy (jOr (jGetD (jGetD result "data") "pagination") (.obj [])) = true :=
      truthy_jOr_right _ _ rfl
    have hpnn := not_nullish_of_truthy _ hpt
    have hcp := jGet_of_not_nullish _ "currentPage" hpnn
    have htp := jGet_of_not_nullish _ "totalPages" hpnn
    have htu := jGet_of_not_nullish _ "totalUrls" hpnn
    have hhn := jGet_of_not_nullish _ "hasNextPage" hpnn
    have hhp := jGet_of_not_nullish _ "hasPrevPage" hpnn
    simp [urlAPI.normalizeList, normalizeListD, hs, hd, hu, hpg, hcp, htp, htu,
      hhn, hhp, hc, hc'.1, hc'.2, envCond, urlsVal, pagData, exceptBind_ok,
      exceptMap_ok]
  · have hcf : envCond result = false := by simpa using hc
    have hcf' := hcf
    simp only [envCond] at hcf'
    have hng : ¬(truthy (jGetD result "success") = true ∧
        truthy (jGetD result "data") = true) := by
      intro hand
      rw [hand.1, hand.2] at hcf'
      simp at hcf'
    simp [urlAPI.normalizeList, normalizeListD, hs, hd, hcf, hng, exceptBind_ok,
      exceptMap_ok, exceptPure_ok]

/-- c1CexBody refutes C1 as stated: it takes the current nested-envelope
branch, but `data.urls` is the truthy non-array value 5, so
`urlsData.length` is undefined, `pagination.totalUrls` is absent, and the
returned record has `totalItems` undefined. -/
def c1CexBody : JValue :=
  .obj [("success", .bool true), ("data", .obj [("urls", .num 5)])]

/-- C1 counterexample: a 2xx response whose body is `c1CexBody` makes
urlAPI.getAll return a pagination record whose totalItems field is the
JavaScript undefined value, so not all five pagination fields are defined;
and at a 2xx response with JSON body null the call does not return any
record at all - the read result.success throws a TypeError. -/
theorem c1_counterexample :
    urlAPI.getAll 1 { status := 200, body := c1CexBody, bodyText := "" } =
      .ok (normalizeListD 1 c1CexBody) ∧
    (normalizeListD 1 c1CexBody).pagination.totalItems = JValue.undefined ∧
    urlAPI.getAll 1 { status := 200, body := .null, bodyText := "" } =
      .error ("TypeError: Cannot read properties of null (reading " ++
        "success" ++ ")") :=
  ⟨rfl, rfl, rfl⟩

/-- C1 (amended): for every page and every response body other than null
and undefined (on those two the read result.success throws a TypeError
instead of returning a record), urlAPI.getAll on a 2xx response returns a
record whose pagination has currentPage, totalPages, hasNext and hasPrev
always defined, and whose totalItems is defined except exactly when the
body takes the envelope branch with a falsy pagination.totalUrls and a urls
value whose length is undefined (a truthy non-array, non-string value
without a length field). -/
theorem c1_getAll_pagination_defined (page : Int) (result : JValue)
    (hnn : jNullish result = false) :
    urlAPI.normalizeList page result = .ok (normalizeListD page result) ∧
    (normalizeListD page result).pagination.currentPage ≠ .undefined ∧
    (normalizeListD page result).pagination.totalPages ≠ .undefined ∧
    (normalizeListD page result).pagination.hasNext ≠ .undefined ∧
    (normalizeListD page result).pagination.hasPrev ≠ .undefined ∧
    ((normalizeListD page result).pagination.totalItems = .undefined ↔
      (envCond result = true ∧
       truthy (jGetD (pagData result) "totalUrls") = false ∧
       jLength (urlsVal result) = .undefined)) ∧
    (∀ r : HttpResponse, respOk r = true → r.body = result →
      urlAPI.getAll page r = .ok (normalizeListD page result)) := by
  refine ⟨normalizeList_of_not_nullish page result hnn, ?_, ?_, ?_, ?_, ?_, ?_⟩ <;>
    first
    | (intro r hok hbody
       have hcall : urlAPI.getAll page r = urlAPI.normalizeList page r.body := by
         simp [urlAPI.getAll, hok]
       rw [hcall, hbody]
       exact normalizeList_of_not_nullish page result hnn)
    | (by_cases hc : envCond result = true
       · simp only [normalizeListD, hc, if_true]
         first
         | exact jOr_ne_undefined _ _ (num_ne_undefined _)
         | exact jOr_ne_undefined _ _ (bool_ne_undefined _)
         | simp [jOr_eq_undefined_iff, hc]
       · simp only [normalizeListD, hc]
         first
         | exact num_ne_undefined _
         | exact bool_ne_undefined _
         | simp [hc, num_ne_undefined])

/-- C1 witness: the amended theorem applied at a concrete 2xx legacy-array
response. -/
theorem c1_witness :
    urlAPI.getAll 3 { status := 200, body := .arr [], bodyText := "" } =
      .ok (normalizeListD 3 (.arr [])) :=
  (c1_getAll_pagination_defined 3 (.arr []) rfl).2.2.2.2.2.2
    { status := 200, body := .arr [], bodyText := "" } rfl rfl

/-- C2 counterexample: at a 2xx response whose JSON body is null - a body
that is neither the envelope shape nor an array - the URL list call does
not return the synthetic single-page envelope: the read result.success
throws, and the call rejects with a TypeError. -/
theorem c2_counterexample :
    urlAPI.getAll 1 { status := 200, body := .null, bodyText := "" } =
      .error ("TypeError: Cannot read properties of null (reading " ++
        "success" ++ ")") ∧
    isOkE (urlAPI.getAll 1 { status := 200, body := .null, bodyText := "" }) =
      false :=
  ⟨rfl, rfl⟩

/-- C2 (amended): a 2xx response whose body is a bare array of n records
yields that array with the synthetic envelope (currentPage = requested
page, one total page, totalItems = n, no next, no prev); a 2xx response
whose body is neither null nor undefined (on those two the call instead
rejects with a TypeError), does not satisfy the envelope condition and is
not an array yields the empty list with the same synthetic envelope and
totalItems = 0. -/
theorem c2_getAll_legacy_and_fallback (page : Int) (resp : HttpResponse)
    (hok : respOk resp = true) :
    (∀ xs : List JValue, resp.body = .arr xs →
      urlAPI.getAll page resp =
        .ok { data := xs
              pagination :=
                { currentPage := .num page, totalPages := .num 1
                  totalItems := .num xs.length, hasNext := .bool false
                  hasPrev := .bool false } }) ∧
    (jNullish resp.body = false → envCond resp.body = false →
      isArray resp.body = false →
      urlAPI.getAll page resp =
        .ok { data := []
              pagination :=
                { currentPage := .num page, totalPages := .num 1
                  totalItems := .num 0, hasNext := .bool false
                  hasPrev := .bool false } }) := by
  have hcall : urlAPI.getAll page resp = urlAPI.normalizeList page resp.body := by
    simp [urlAPI.getAll, hok]
  constructor
  · intro xs hbody
    rw [hcall, hbody]
    simp [urlAPI.normalizeList, jGet, truthy, isArray, jToList, exceptBind_ok,
      exceptMap_ok]
  · intro hnn henv harr
    rw [hcall, normalizeList_of_not_nullish page resp.body hnn]
    simp [normalizeListD, henv, harr, jToList]

/-- C2 witness: the theorem applied at a concrete legacy bare-array response
and at a concrete malformed (empty object body) response. -/
theorem c2_witness :
    urlAPI.getAll 1 { status := 200, body := .arr [.null], bodyText := "" } =
      .ok { data := [.null]
            pagination :=
              { currentPage := .num 1, totalPages := .num 1
                totalItems := .num 1, hasNext := .bool false
                hasPrev := .bool false } } ∧
    urlAPI.getAll 2 { status := 204, body := .obj [], bodyText := "" } =
      .ok { data := []
            pagination :=
              { currentPage := .num 2, totalPages := .num 1
                totalItems := .num 0, hasNext := .bool false
                hasPrev := .bool false } } :=
  ⟨(c2_getAll_legacy_and_fallback 1
      { status := 200, body := .arr [.null], bodyText := "" } rfl).1 [.null] rfl,
   (c2_getAll_legacy_and_fallback 2
      { status := 204, body := .obj [], bodyText := "" } rfl).2 rfl rfl rfl⟩

/-- c3CexStore is a storage holding a token, used to refute C3 as stated. -/
def c3CexStore : LocalStorage := [("authToken", "tok123")]

/-- c3CexOptions is a standard fetch options value that carries its own
headers and credentials entries. -/
def c3CexOptions : RequestInit :=
  { method := some "POST"
    headers := some [("X-Requested-With", "app")]
    body := some (.str "payload")
    credentials := some "omit" }

/-- C3 counterexample: because apiRequest spreads the caller options over
the computed defaults, an options value carrying its own headers and
credentials entries produces a request with no Content-Type header despite a
non-FormData body, no Authorization header despite a stored token, and
credentials not set to include - refuting the claim for arbitrary standard
request options. -/
theorem c3_counterexample :
    isFormDataBody c3CexOptions.body = false ∧
    getAuthToken c3CexStore = some "tok123" ∧
    (apiRequest c3CexStore "url" c3CexOptions).credentials = "omit" ∧
    lookupKV (apiRequest c3CexStore "url" c3CexOptions).headers "Content-Type" = none ∧
    lookupKV (apiRequest c3CexStore "url" c3CexOptions).headers "Authorization" = none :=
  ⟨rfl, rfl, rfl, by decide, by decide⟩

/-- C3 (amended): for every path and every options value that does not carry
its own headers or credentials entry, the produced request includes
credentials (include), carries Content-Type application/json unless the body
is FormData (in which case no Content-Type header is set), and carries
Authorization Bearer token exactly when a truthy token is present in durable
storage. -/
theorem c3_apiRequest_contract (store : LocalStorage) (url : String)
    (options : RequestInit) (hh : options.headers = none)
    (hc : options.credentials = none) :
    (apiRequest store url options).credentials = "include" ∧
    (isFormDataBody options.body = false →
      lookupKV (apiRequest store url options).headers "Content-Type" =
        some "application/json") ∧
    (isFormDataBody options.body = true →
      lookupKV (apiRequest store url options).headers "Content-Type" = none) ∧
    (∀ t : String, getAuthToken store = some t → t ≠ "" →
      lookupKV (apiRequest store url options).headers "Authorization" =
        some ("Bearer " ++ t)) ∧
    (strTruthy (getAuthToken store) = false →
      lookupKV (apiRequest store url options).headers "Authorization" = none) := by
  have hauthct : ∀ (l : List (String × String)) (v : String),
      lookupKV (setKV l "Authorization" v) "Content-Type" =
        lookupKV l "Content-Type" :=
    fun l v => lookupKV_setKV_ne l "Authorization" v "Content-Type" (by decide)
  have hctauth : ∀ (l : List (String × String)) (v : String),
      lookupKV (setKV l "Content-Type" v) "Authorization" =
        lookupKV l "Authorization" :=
    fun l v => lookupKV_setKV_ne l "Content-Type" v "Authorization" (by decide)
  have hreq : (apiRequest store url options).headers =
      createHeaders store [] (isFormDataBody options.body) := by
    simp [apiRequest, hh]
  have hcred : (apiRequest store url options).credentials = "include" := by
    simp [apiRequest, hc]
  refine ⟨hcred, ?_, ?_, ?_, ?_⟩
  · intro hfd
    rw [hreq, hfd]
    cases htok : getAuthToken store with
    | none => simp [createHeaders, htok, lookupKV_setKV_self]
    | some t =>
      by_cases ht : t = ""
      · simp [createHeaders, htok, ht, lookupKV_setKV_self]
      · simp only [createHeaders, htok]
        simp only [bne_iff_ne, ne_eq, ht, not_false_eq_true, if_true]
        simp [hauthct, lookupKV_setKV_self]
  · intro hfd
    rw [hreq, hfd]
    cases htok : getAuthToken store with
    | none => simp [createHeaders, htok, lookupKV]
    | some t =>
      by_cases ht : t = ""
      · simp [createHeaders, htok, ht, lookupKV]
      · simp only [createHeaders, htok]
        simp only [bne_iff_ne, ne_eq, ht, not_false_eq_true, if_true]
        simp [hauthct, lookupKV]
  · intro t htok ht
    rw [hreq]
    cases hfd : isFormDataBody options.body <;>
      · simp only [createHeaders, htok]
        simp only [bne_iff_ne, ne_eq, ht, not_false_eq_true, if_true]
        simp [lookupKV_setKV_self]
  · intro htok
    rw [hreq]
    cases h : getAuthToken store with
    | none =>
      cases hfd : isFormDataBody options.body <;>
        simp [createHeaders, h, lookupKV, hctauth]
    | some t =>
      rw [h] at htok
      have ht : t = "" := by
        by_contra hne
        simp [strTruthy, hne] at htok
      cases hfd : isFormDataBody options.body <;>
        simp [createHeaders, h, ht, lookupKV, hctauth]

/-- C3 witness: the amended contract at a concrete store holding a token and
the empty options value. -/
theorem c3_witness :
    (apiRequest [("authToken", "tok")] "u" {}).credentials = "include" ∧
    lookupKV (apiRequest [("authToken", "tok")] "u" {}).headers "Content-Type" =
      some "application/json" ∧
    lookupKV (apiRequest [("authToken", "tok")] "u" {}).headers "Authorization" =
      some ("Bearer " ++ "tok") :=
  ⟨(c3_apiRequest_contract [("authToken", "tok")] "u" {} rfl rfl).1,
   (c3_apiRequest_contract [("authToken", "tok")] "u" {} rfl rfl).2.1 rfl,
   (c3_apiRequest_contract [("authToken", "tok")] "u" {} rfl rfl).2.2.2.1 "tok" rfl
     (by decide)⟩

/-- C4: validateImageFile returns valid false exactly for a MIME type not
starting with image/ or a size strictly greater than 5 MiB, valid true
otherwise (and, being a total function, it never throws); in particular a
file of exactly 5 MiB with an image MIME type is valid. -/
theorem c4_validateImageFile_iff (f : JFile) :
    ((validateImageFile f).valid = false ↔
      (strStartsWith f.type "image/" = false ∨ 5 * 1024 * 1024 < f.size)) ∧
    (strStartsWith f.type "image/" = true → f.size = 5 * 1024 * 1024 →
      (validateImageFile f).valid = true) := by
  constructor
  · by_cases hm : strStartsWith f.type "image/" = false
    · simp [validateImageFile, hm]
    · have hm' : strStartsWith f.type "image/" = true := by simpa using hm
      by_cases hs : 5 * 1024 * 1024 < f.size
      · simp [validateImageFile, hm', hs]
      · simp [validateImageFile, hm', hs]
  · intro hm hsize
    simp [validateImageFile, hm, hsize]

/-- C4 witness: a 5 MiB PNG file is accepted. -/
theorem c4_witness :
    (validateImageFile
      { name := "a.png", type := "image/png", size := 5 * 1024 * 1024 }).valid = true :=
  (c4_validateImageFile_iff
    { name := "a.png", type := "image/png", size := 5 * 1024 * 1024 }).2 (by decide) rfl

/-- respondsGenerically states that a call throws exactly the given generic
operation-identifying message when the response status is not 2xx, and
resolves on every 2xx response; since the message is a fixed string, no
server-provided detail reaches the caller. -/
def respondsGenerically (call : HttpResponse → Except String JValue) (msg : String) : Prop :=
  ∀ r : HttpResponse,
    (respOk r = false → call r = .error msg) ∧
    (respOk r = true → isOkE (call r) = true)

/-- respondsGenericallyOnParsed is respondsGenerically for the calls that
read a property of the parsed 2xx body: they resolve on every 2xx response
whose body is not null or undefined (on those two the property read throws
a TypeError instead). -/
def respondsGenericallyOnParsed (call : HttpResponse → Except String JValue)
    (msg : String) : Prop :=
  ∀ r : HttpResponse,
    (respOk r = false → call r = .error msg) ∧
    (respOk r = true → jNullish r.body = false → isOkE (call r) = true)

/-- C5 counterexample: a 2xx response whose JSON body is null makes
projectsAPI.getAll and login throw - so a throw does not imply a non-2xx
status - and the thrown error is a TypeError, not the generic
operation-identifying message. -/
theorem c5_counterexample :
    respOk { status := 200, body := JValue.null, bodyText := "" } = true ∧
    projectsAPI.getAll { status := 200, body := .null, bodyText := "" } =
      .error ("TypeError: Cannot read properties of null (reading " ++
        "data" ++ ")") ∧
    authAPI.login [] { status := 200, body := .null, bodyText := "" } =
      .error ("TypeError: Cannot read properties of null (reading " ++
        "token" ++ ")") :=
  ⟨rfl, rfl, rfl⟩

/-- C5 (amended): every resource API call and login throws its generic
operation-identifying error on exactly the non-2xx statuses, with a
constant message independent of the response body; the create, update and
delete calls resolve on every 2xx response, while the list calls and login,
which read a property of the parsed body, resolve on every 2xx response
whose body is not null or undefined (on those two bodies they instead
reject with a TypeError). -/
theorem c5_generic_errors :
    respondsGenericallyOnParsed projectsAPI.getAll "Failed to fetch projects" ∧
    respondsGenerically projectsAPI.create "Failed to create project" ∧
    respondsGenerically projectsAPI.update "Failed to update project" ∧
    respondsGenerically projectsAPI.delete "Failed to delete project" ∧
    respondsGenericallyOnParsed skillsAPI.getAll "Failed to fetch skills" ∧
    respondsGenerically skillsAPI.create "Failed to create skill" ∧
    respondsGenerically skillsAPI.update "Failed to update skill" ∧
    respondsGenerically skillsAPI.delete "Failed to delete skill" ∧
    respondsGenericallyOnParsed messagesAPI.getAll "Failed to fetch messages" ∧
    respondsGenerically urlAPI.create "Failed to create short URL" ∧
    respondsGenerically urlAPI.update "Failed to update URL" ∧
    respondsGenerically urlAPI.delete "Failed to delete URL" ∧
    (∀ (page : Int) (r : HttpResponse),
      (respOk r = false → urlAPI.getAll page r = .error "Failed to fetch URLs") ∧
      (respOk r = true → jNullish r.body = false →
        isOkE (urlAPI.getAll page r) = true)) ∧
    (∀ (store : LocalStorage) (r : HttpResponse),
      (respOk r = false → authAPI.login store r = .error "Login failed") ∧
      (respOk r = true → jNullish r.body = false →
        isOkE (authAPI.login store r) = true)) := by
  refine ⟨?_, ?_, ?_, ?_, ?_, ?_, ?_, ?_, ?_, ?_, ?_, ?_, ?_, ?_⟩
  all_goals
    first
      | (intro r
         refine ⟨fun h => ?_, fun h => ?_⟩ <;>
           simp [projectsAPI.create, projectsAPI.update, projectsAPI.delete,
             skillsAPI.create, skillsAPI.update, skillsAPI.delete,
             urlAPI.create, urlAPI.update, urlAPI.delete, h, isOkE])
      | (intro r
         refine ⟨fun h => ?_, fun h hb => ?_⟩
         · simp [projectsAPI.getAll, skillsAPI.getAll, messagesAPI.getAll, h]
         · simp [projectsAPI.getAll, skillsAPI.getAll, messagesAPI.getAll, h,
             isOkE, jGet_of_not_nullish r.body "data" hb, exceptBind_ok,
             exceptPure_ok])
      | (intro a r
         refine ⟨fun h => ?_, fun h hb => ?_⟩
         · simp [urlAPI.getAll, authAPI.login, h]
         · first
             | simp [urlAPI.getAll, h,
                 normalizeList_of_not_nullish a r.body hb, isOkE]
             | simp [authAPI.login, h, jGet_of_not_nullish r.body "token" hb,
                 isOkE, exceptBind_ok, exceptPure_ok])

/-- C5 witness: the generic failure and the success of projectsAPI.getAll at
concrete 500 and 200 responses, and of login at a 401 response. -/
theorem c5_witness :
    projectsAPI.getAll { status := 500, body := .null, bodyText := "" } =
      .error "Failed to fetch projects" ∧
    isOkE (projectsAPI.getAll { status := 200, body := .obj [], bodyText := "" }) = true ∧
    authAPI.login [] { status := 401, body := .null, bodyText := "" } =
      .error "Login failed" :=
  ⟨(c5_generic_errors.1 { status := 500, body := .null, bodyText := "" }).1 rfl,
   (c5_generic_errors.1 { status := 200, body := .obj [], bodyText := "" }).2 rfl rfl,
   (c5_generic_errors.2.2.2.2.2.2.2.2.2.2.2.2.2 []
     { status := 401, body := .null, bodyText := "" }).1 rfl⟩

/-- C6: for every prior storage, state and logout-endpoint outcome (success
or rejection alike), handleLogout leaves a storage with no authToken and no
isAuthenticated entry, an unauthenticated state, and the overview section. -/
theorem c6_handleLogout_clears (store : LocalStorage) (st : AppState)
    (outcome : NetOutcome) :
    getItem (handleLogout store st outcome).1 "authToken" = none ∧
    getItem (handleLogout store st outcome).1 "isAuthenticated" = none ∧
    (handleLogout store st outcome).2.isAuthenticated = false ∧
    (handleLogout store st outcome).2.activeSection = "overview" := by
  have hK : ∀ l : LocalStorage,
      lookupKV (removeKV l "isAuthenticated") "authToken" = lookupKV l "authToken" :=
    fun l => lookupKV_removeKV_ne l "authToken" "isAuthenticated" (by decide)
  cases outcome <;>
    exact ⟨by simp [handleLogout, authAPI.logout, removeItem, getItem, hK,
             lookupKV_removeKV_self],
           by simp [handleLogout, authAPI.logout, removeItem, getItem,
             lookupKV_removeKV_self],
           rfl, rfl⟩

/-- C7: when the mutation call succeeds, every project or skill handler
issues its mutation, then the parallel batch of the three list fetches, then
the URL fetch at the current URL page (all four resource lists reload);
every URL handler issues its mutation and then only the URL fetch at the
current URL page, and its resulting state keeps the projects, skills and
messages lists unchanged. -/
theorem c7_mutation_reload_frame (srv : Server) (st : AppState) (id : String) :
    (isOkE srv.projectCreate = true →
      (handleAddProject srv st).2 =
        [[FetchOp.createProject], [.getProjects, .getSkills, .getMessages],
         [.getUrls st.currentUrlPage 20]]) ∧
    (isOkE srv.projectUpdate = true →
      (handleUpdateProject srv st id).2 =
        [[FetchOp.updateProject id], [.getProjects, .getSkills, .getMessages],
         [.getUrls st.currentUrlPage 20]]) ∧
    (isOkE srv.projectDelete = true →
      (handleDeleteProject srv st id).2 =
        [[FetchOp.deleteProject id], [.getProjects, .getSkills, .getMessages],
         [.getUrls st.currentUrlPage 20]]) ∧
    (isOkE srv.skillCreate = true →
      (handleAddSkill srv st).2 =
        [[FetchOp.createSkill], [.getProjects, .getSkills, .getMessages],
         [.getUrls st.currentUrlPage 20]]) ∧
    (isOkE srv.skillUpdate = true →
      (handleUpdateSkill srv st id).2 =
        [[FetchOp.updateSkill id], [.getProjects, .getSkills, .getMessages],
         [.getUrls st.currentUrlPage 20]]) ∧
    (isOkE srv.skillDelete = true →
      (handleDeleteSkill srv st id).2 =
        [[FetchOp.deleteSkill id], [.getProjects, .getSkills, .getMessages],
         [.getUrls st.currentUrlPage 20]]) ∧
    (isOkE srv.urlCreate = true →
      (handleAddUrl srv st).2 = [[FetchOp.createUrl], [.getUrls st.currentUrlPage 20]]) ∧
    (isOkE srv.urlUpdate = true →
      (handleUpdateUrl srv st id).2 =
        [[FetchOp.updateUrl id], [.getUrls st.currentUrlPage 20]]) ∧
    (isOkE srv.urlDelete = true →
      (handleDeleteUrl srv st id).2 =
        [[FetchOp.deleteUrl id], [.getUrls st.currentUrlPage 20]]) ∧
    (∀ st2 : AppState, (handleAddUrl srv st).1 = .ok st2 →
      st2.projects = st.projects ∧ st2.skills = st.skills ∧
      st2.messages = st.messages) ∧
    (∀ st2 : AppState, (handleUpdateUrl srv st id).1 = .ok st2 →
      st2.projects = st.projects ∧ st2.skills = st.skills ∧
      st2.messages = st.messages) ∧
    (∀ st2 : AppState, (handleDeleteUrl srv st id).1 = .ok st2 →
      st2.projects = st.projects ∧ st2.skills = st.skills ∧
      st2.messages = st.messages) := by
  have hframe : ∀ page : Int,
      (loadUrlsData srv st page).1.projects = st.projects ∧
      (loadUrlsData srv st page).1.skills = st.skills ∧
      (loadUrlsData srv st page).1.messages = st.messages := by
    intro page
    cases h : srv.urlsList page 20 <;> simp [loadUrlsData, h]
  refine ⟨?_, ?_, ?_, ?_, ?_, ?_, ?_, ?_, ?_, ?_, ?_, ?_⟩
  · intro hok
    cases hc : srv.projectCreate with
    | error e => rw [hc] at hok; simp [isOkE] at hok
    | ok v => simp [handleAddProject, hc, loadDashboardData, loadUrlsData]
  · intro hok
    cases hc : srv.projectUpdate with
    | error e => rw [hc] at hok; simp [isOkE] at hok
    | ok v => simp [handleUpdateProject, hc, loadDashboardData, loadUrlsData]
  · intro hok
    cases hc : srv.projectDelete with
    | error e => rw [hc] at hok; simp [isOkE] at hok
    | ok v => simp [handleDeleteProject, hc, loadDashboardData, loadUrlsData]
  · intro hok
    cases hc : srv.skillCreate with
    | error e => rw [hc] at hok; simp [isOkE] at hok
    | ok v => simp [handleAddSkill, hc, loadDashboardData, loadUrlsData]
  · intro hok
    cases hc : srv.skillUpdate with
    | error e => rw [hc] at hok; simp [isOkE] at hok
    | ok v => simp [handleUpdateSkill, hc, loadDashboardData, loadUrlsData]
  · intro hok
    cases hc : srv.skillDelete with
    | error e => rw [hc] at hok; simp [isOkE] at hok
    | ok v => simp [handleDeleteSkill, hc, loadDashboardData, loadUrlsData]
  · intro hok
    cases hc : srv.urlCreate with
    | error e => rw [hc] at hok; simp [isOkE] at hok
    | ok v => simp [handleAddUrl, hc, loadUrlsData]
  · intro hok
    cases hc : srv.urlUpdate with
    | error e => rw [hc] at hok; simp [isOkE] at hok
    | ok v => simp [handleUpdateUrl, hc, loadUrlsData]
  · intro hok
    cases hc : srv.urlDelete with
    | error e => rw [hc] at hok; simp [isOkE] at hok
    | ok v => simp [handleDeleteUrl, hc, loadUrlsData]
  · intro st2 hok
    cases hc : srv.urlCreate with
    | error e => simp [handleAddUrl, hc] at hok
    | ok v =>
      rw [handleAddUrl, hc] at hok
      simp only [Except.ok.injEq] at hok
      rw [← hok]
      exact hframe st.currentUrlPage
  · intro st2 hok
    cases hc : srv.urlUpdate with
    | error e => simp [handleUpdateUrl, hc] at hok
    | ok v =>
      rw [handleUpdateUrl, hc] at hok
      simp only [Except.ok.injEq] at hok
      rw [← hok]
      exact hframe st.currentUrlPage
  · intro st2 hok
    cases hc : srv.urlDelete with
    | error e => simp [handleDeleteUrl, hc] at hok
    | ok v =>
      rw [handleDeleteUrl, hc] at hok
      simp only [Except.ok.injEq] at hok
      rw [← hok]
      exact hframe st.currentUrlPage

/-- C7 witness: the trace of a successful project add and of a successful
URL add on the concrete demo server from the initial state. -/
theorem c7_witness :
    (handleAddProject demoServer initialAppState).2 =
      [[FetchOp.createProject], [.getProjects, .getSkills, .getMessages],
       [.getUrls 1 20]] ∧
    (handleAddUrl demoServer initialAppState).2 =
      [[FetchOp.createUrl], [.getUrls 1 20]] :=
  ⟨(c7_mutation_reload_frame demoServer initialAppState "x").1 rfl,
   (c7_mutation_reload_frame demoServer initialAppState "x").2.2.2.2.2.2.1 rfl⟩

/-- apiRequest_auth_header: with no caller headers entry and a non-empty
stored token, the built request carries the bearer header. -/
theorem apiRequest_auth_header (store : LocalStorage) (url : String)
    (options : RequestInit) (hh : options.headers = none) (t : String)
    (htok : getAuthToken store = some t) (ht : t ≠ "") :
    lookupKV (apiRequest store url options).headers "Authorization" =
      some ("Bearer " ++ t) := by
  have hreq : (apiRequest store url options).headers =
      createHeaders store [] (isFormDataBody options.body) := by
    simp [apiRequest, hh]
  rw [hreq]
  cases hfd : isFormDataBody options.body <;>
    · simp only [createHeaders, htok]
      simp only [bne_iff_ne, ne_eq, ht, not_false_eq_true, if_true]
      simp [lookupKV_setKV_self]

/-- apiRequest_no_auth_header: with no caller headers entry and no truthy
stored token, the built request carries no bearer header. -/
theorem apiRequest_no_auth_header (store : LocalStorage) (url : String)
    (options : RequestInit) (hh : options.headers = none)
    (htok : strTruthy (getAuthToken store) = false) :
    lookupKV (apiRequest store url options).headers "Authorization" = none := by
  have hctauth : ∀ (l : List (String × String)) (v : String),
      lookupKV (setKV l "Content-Type" v) "Authorization" =
        lookupKV l "Authorization" :=
    fun l v => lookupKV_setKV_ne l "Content-Type" v "Authorization" (by decide)
  have hreq : (apiRequest store url options).headers =
      createHeaders store [] (isFormDataBody options.body) := by
    simp [apiRequest, hh]
  rw [hreq]
  cases h : getAuthToken store with
  | none =>
    cases hfd : isFormDataBody options.body <;>
      simp [createHeaders, h, lookupKV, hctauth]
  | some t =>
    rw [h] at htok
    have ht : t = "" := by
      by_contra hne
      simp [strTruthy, hne] at htok
    cases hfd : isFormDataBody options.body <;>
      simp [createHeaders, h, ht, lookupKV, hctauth]

/-- C8: after a 2xx login response whose body carries a non-empty string
token, login persists exactly that token to durable storage from which it is
retrievable, and any next request built with options carrying no headers
entry bears Authorization Bearer token; after logout, for every endpoint
outcome, such a request bears no Authorization header. -/
theorem c8_login_logout_auth_header (store : LocalStorage) (resp : HttpResponse)
    (t : String) (url : String) (options : RequestInit)
    (hok : respOk resp = true) (htok : jGet resp.body "token" = .ok (.str t))
    (ht : t ≠ "") (hh : options.headers = none) :
    authAPI.login store resp = .ok (setItem store "authToken" t, resp.body) ∧
    getItem (setItem store "authToken" t) "authToken" = some t ∧
    lookupKV (apiRequest (setItem store "authToken" t) url options).headers
      "Authorization" = some ("Bearer " ++ t) ∧
    (∀ outcome : NetOutcome,
      lookupKV (apiRequest (authAPI.logout (setItem store "authToken" t) outcome)
        url options).headers "Authorization" = none) := by
  have hget : getItem (setItem store "authToken" t) "authToken" = some t := by
    simp [getItem, setItem, lookupKV_setKV_self]
  refine ⟨?_, hget, ?_, ?_⟩
  · have htr : truthy (JValue.str t) = true := by
      simp [truthy, ht]
    simp [authAPI.login, hok, htok, exceptBind_ok, exceptMap_ok, exceptPure_ok,
      htr, jToString]
  · exact apiRequest_auth_header _ url options hh t hget ht
  · intro outcome
    apply apiRequest_no_auth_header _ url options hh
    have hrm : getAuthToken (authAPI.logout (setItem store "authToken" t) outcome) = none := by
      cases outcome <;>
        simp [authAPI.logout, removeItem, getAuthToken, getItem, lookupKV_removeKV_self]
    rw [hrm]
    rfl

/-- C8 witness: the round trip at a concrete empty store, a concrete 200
login response carrying token tok, empty options, and a rejected logout
endpoint call. -/
theorem c8_witness :
    authAPI.login [] { status := 200, body := .obj [("token", .str "tok")], bodyText := "" } =
      .ok (setItem [] "authToken" "tok", .obj [("token", .str "tok")]) ∧
    lookupKV (apiRequest (setItem [] "authToken" "tok") "u" {}).headers
      "Authorization" = some ("Bearer " ++ "tok") ∧
    lookupKV (apiRequest (authAPI.logout (setItem [] "authToken" "tok") .rejected)
      "u" {}).headers "Authorization" = none :=
  ⟨(c8_login_logout_auth_header []
      { status := 200, body := .obj [("token", .str "tok")], bodyText := "" }
      "tok" "u" {} rfl rfl (by decide) rfl).1,
   (c8_login_logout_auth_header []
      { status := 200, body := .obj [("token", .str "tok")], bodyText := "" }
      "tok" "u" {} rfl rfl (by decide) rfl).2.2.1,
   (c8_login_logout_auth_header []
      { status := 200, body := .obj [("token", .str "tok")], bodyText := "" }
      "tok" "u" {} rfl rfl (by decide) rfl).2.2.2 .rejected⟩

/-- C9 counterexample: from the initial state, the event sequence login,
page change to 3, logout leaves the controller unauthenticated but with
currentUrlPage still 3; the next login (an authenticated-becomes-true
transition) then fires a dashboard load whose sequential URL fetch requests
page 3, not the first page as claimed. -/
theorem c9_counterexample :
    ((runEvents demoServer ([], initialAppState)
        [AppEvent.login, .urlPageChange 3, .logout]).1).2.isAuthenticated = false ∧
    (appStep demoServer
        (runEvents demoServer ([], initialAppState)
          [AppEvent.login, .urlPageChange 3, .logout]).1 .login).2 =
      [[FetchOp.getProjects, .getSkills, .getMessages], [.getUrls 3 20]] ∧
    FetchOp.getUrls 3 20 ≠ FetchOp.getUrls 1 20 :=
  ⟨rfl, rfl, by decide⟩

/-- C9 (amended): the dashboard load issues the three list fetches as one
parallel batch followed by a separate sequential URL fetch at the current
URL page (the first page whenever currentUrlPage is 1, as in the initial
state); each of the three lists is populated from its own outcome alone, a
failing fetch yielding the empty list for that resource while the other two
still populate. -/
theorem c9_dashboard_load_fault_tolerant (srv : Server) (st : AppState) :
    (loadDashboardData srv st).2 =
      [[FetchOp.getProjects, .getSkills, .getMessages],
       [.getUrls st.currentUrlPage 20]] ∧
    (loadDashboardData srv st).1.projects = orEmptyList srv.projectsList ∧
    (loadDashboardData srv st).1.skills = orEmptyList srv.skillsList ∧
    (loadDashboardData srv st).1.messages = orEmptyList srv.messagesList ∧
    (∀ e : String, srv.projectsList = .error e →
      (loadDashboardData srv st).1.projects = []) ∧
    (∀ e : String, srv.skillsList = .error e →
      (loadDashboardData srv st).1.skills = []) ∧
    (∀ e : String, srv.messagesList = .error e →
      (loadDashboardData srv st).1.messages = []) ∧
    (st.currentUrlPage = 1 →
      (loadDashboardData srv st).2 =
        [[FetchOp.getProjects, .getSkills, .getMessages], [.getUrls 1 20]]) := by
  have hfields :
      (loadDashboardData srv st).1.projects = orEmptyList srv.projectsList ∧
      (loadDashboardData srv st).1.skills = orEmptyList srv.skillsList ∧
      (loadDashboardData srv st).1.messages = orEmptyList srv.messagesList := by
    cases h : srv.urlsList st.currentUrlPage 20 <;>
      simp [loadDashboardData, loadUrlsData, h]
  refine ⟨by simp [loadDashboardData, loadUrlsData], hfields.1, hfields.2.1,
    hfields.2.2, ?_, ?_, ?_, ?_⟩
  · intro e he
    rw [hfields.1, he]
    rfl
  · intro e he
    rw [hfields.2.1, he]
    rfl
  · intro e he
    rw [hfields.2.2, he]
    rfl
  · intro hp
    rw [← hp]
    simp [loadDashboardData, loadUrlsData]

/-- C9 witness: the amended statement at the failing demo server and the
initial state - the three lists come up empty without blocking each other
and the URL fetch requests page 1. -/
theorem c9_witness :
    (loadDashboardData failingServer initialAppState).1.projects = [] ∧
    (loadDashboardData failingServer initialAppState).1.skills = [] ∧
    (loadDashboardData failingServer initialAppState).1.messages = [] ∧
    (loadDashboardData failingServer initialAppState).2 =
      [[FetchOp.getProjects, .getSkills, .getMessages], [.getUrls 1 20]] :=
  ⟨(c9_dashboard_load_fault_tolerant failingServer initialAppState).2.2.2.2.1
      "network down" rfl,
   (c9_dashboard_load_fault_tolerant failingServer initialAppState).2.2.2.2.2.1
      "network down" rfl,
   (c9_dashboard_load_fault_tolerant failingServer initialAppState).2.2.2.2.2.2.1
      "network down" rfl,
   (c9_dashboard_load_fault_tolerant failingServer initialAppState).2.2.2.2.2.2.2 rfl⟩

/-- C10: a file rejected by validation (MIME type not starting with image/
or size strictly over 5 MiB) makes uploadImage fail with exactly the
validation message and no network request; the network request is issued
exactly when the file passes validation. -/
theorem c10_uploadImage_gate (f : JFile) (resp : HttpResponse) :
    ((strStartsWith f.type "image/" = false ∨ 5 * 1024 * 1024 < f.size) →
      (uploadImage f resp).requested = false ∧
      (∃ msg : String, (validateImageFile f).error = some msg ∧
        (uploadImage f resp).result = .error msg)) ∧
    ((uploadImage f resp).requested = true ↔ (validateImageFile f).valid = true) := by
  constructor
  · intro h
    have hv : (validateImageFile f).valid = false ∧
        (validateImageFile f).error ≠ none := by
      rcases h with hm | hs
      · simp [validateImageFile, hm]
      · by_cases hm : strStartsWith f.type "image/" = false
        · simp [validateImageFile, hm]
        · have hm' : strStartsWith f.type "image/" = true := by simpa using hm
          simp [validateImageFile, hm', hs]
    obtain ⟨msg, hmsg⟩ := Option.ne_none_iff_exists'.mp hv.2
    refine ⟨by simp [uploadImage, hv.1], msg, hmsg, ?_⟩
    simp [uploadImage, hv.1, hmsg]
  · constructor
    · intro hreq
      cases hval : (validateImageFile f).valid with
      | true => rfl
      | false => simp [uploadImage, hval] at hreq
    · intro hv
      simp [uploadImage, hv]

/-- C10 witness: a concrete non-image file is rejected without any request
being issued. -/
theorem c10_witness :
    (uploadImage { name := "a.txt", type := "text/plain", size := 10 }
      { status := 200, body := .null, bodyText := "" }).requested = false :=
  ((c10_uploadImage_gate { name := "a.txt", type := "text/plain", size := 10 }
      { status := 200, body := .null, bodyText := "" }).1 (Or.inl (by decide))).1
